import Mathlib

/-!
Verification of the retry-with-backoff bot script (`src/twitter_bot.py`).

The development shallowly embeds the script's retry decorator
(`retry_with_backoff`, lines 42-81), the date-window computation and query
parameters of `fetch_image` (lines 83-113), the nesting of the wrapped
`fetch_image` call inside the wrapped `post_to_twitter` (lines 115-152),
and the scheduler driver `main` (lines 154-170).

Python exceptions are modelled by the `PyExc` structure, a fallible attempt
by `Except PyExc α`, and one execution of the decorator's `wrapper` by the
`RunTrace` structure recording the outcome, the number of attempts made,
the sequence of `sleep` durations, and the log events emitted.
-/

/-- Model of a Python exception as observed by the wrapper (lines 61-74):
whether it is a `tweepy.errors.TooManyRequests`, whether it is a
`requests.exceptions.RequestException`, the `status_code` that
`getattr(e.response, 'status_code', 0)` yields, and `str(e)`. -/
structure PyExc where
  isTooManyRequests : Bool
  isRequestException : Bool
  responseStatus : ℕ
  msg : String
deriving DecidableEq

/-- The rate-limit classification of lines 68-71:
`isinstance(e, tweepy.errors.TooManyRequests) or
 (isinstance(e, requests.exceptions.RequestException) and
  getattr(e.response, 'status_code', 0) == 429)`. -/
def isRateLimitError (e : PyExc) : Bool :=
  e.isTooManyRequests || (e.isRequestException && e.responseStatus == 429)

/-- The four keyword parameters of `retry_with_backoff` (line 42).
`max_retries` is a Python int, so it is modelled as `ℤ`; the delays and the
factor are numbers, modelled as `ℚ`. -/
structure RetryConfig where
  maxRetries : ℤ
  initialDelay : ℚ
  maxDelay : ℚ
  backoffFactor : ℚ
deriving DecidableEq

/-- How one execution of `wrapper` terminates: a normal `return` (line 60),
the `raise` inside the loop when `retry == max_retries` (line 65), or the
trailing `raise last_exception` after the loop (line 79), which in Python
raises `None` (a `TypeError`) when no attempt was ever made. -/
inductive RunOutcome (α : Type) where
  | ok : α → RunOutcome α
  | raised : PyExc → RunOutcome α
  | trailingRaise : Option PyExc → RunOutcome α
deriving DecidableEq

/-- Recognises the trailing `raise last_exception` outcome (line 79). -/
def isTrailingRaise : RunOutcome α → Bool
  | .trailingRaise _ => true
  | _ => false

/-- The observable log events of the wrapper: `logging.error` on final
failure (line 64), the rate-limit `logging.warning` (line 72), and the
generic attempt-failed `logging.warning` (line 74), each with the data
interpolated into its message. -/
inductive LogEvent where
  | errorFinal (maxRetries : ℤ) (msg : String)
  | warnRateLimit (delay : ℚ)
  | warnAttemptFailed (attempt : ℕ) (msg : String) (delay : ℚ)
deriving DecidableEq

/-- The observable trace of one execution of `wrapper` (lines 54-79):
its outcome, how many times `func` was called, the successive arguments
passed to `sleep` (line 76), and the log events emitted. -/
structure RunTrace (α : Type) where
  outcome : RunOutcome α
  attemptsMade : ℕ
  sleeps : List ℚ
  logs : List LogEvent
deriving DecidableEq

/-- The delay update of line 77: `delay = min(delay * backoff_factor, max_delay)`. -/
def delayStep (cfg : RetryConfig) (d : ℚ) : ℚ :=
  min (d * cfg.backoffFactor) cfg.maxDelay

/-- The delay obtained from starting value `d` after `i` applications of the
line-77 update; `delayIter cfg d i` is the argument of the `(i+1)`-st `sleep`
in a run whose current delay is `d`. -/
def delayIter (cfg : RetryConfig) (d : ℚ) : ℕ → ℚ
  | 0 => d
  | i + 1 => delayStep cfg (delayIter cfg d i)

/-- The delay sequence of a whole run: `d_0 = initial_delay` (line 55),
`d_{i+1} = min(d_i * backoff_factor, max_delay)` (line 77). -/
def delaySeq (cfg : RetryConfig) : ℕ → ℚ :=
  delayIter cfg cfg.initialDelay

/-- `true` exactly when the attempt result is an exception. -/
def isErr : Except PyExc α → Bool
  | .ok _ => false
  | .error _ => true

/-- The `for retry in range(max_retries + 1)` loop of lines 58-77, with
`iters` remaining iterations, the current `retry` index, the current
`delay`, and the current `last_exception`.  `func retry` is the result of
calling `func(*args, **kwargs)` on the iteration with counter `retry`.
When the iterations are exhausted the trailing `raise last_exception`
(line 79) fires. -/
def wrapperLoop (cfg : RetryConfig) (func : ℕ → Except PyExc α) :
    ℕ → ℕ → ℚ → Option PyExc → RunTrace α
  | 0, _retry, _delay, lastExc =>
      { outcome := .trailingRaise lastExc, attemptsMade := 0, sleeps := [], logs := [] }
  | iters + 1, retry, delay, _lastExc =>
      match func retry with
      | .ok a => { outcome := .ok a, attemptsMade := 1, sleeps := [], logs := [] }
      | .error e =>
          if (retry : ℤ) = cfg.maxRetries then
            { outcome := .raised e, attemptsMade := 1, sleeps := [],
              logs := [.errorFinal cfg.maxRetries e.msg] }
          else
            let ev : LogEvent :=
              if isRateLimitError e then .warnRateLimit delay
              else .warnAttemptFailed (retry + 1) e.msg delay
            let rest := wrapperLoop cfg func iters (retry + 1) (delayStep cfg delay) (some e)
            { outcome := rest.outcome, attemptsMade := rest.attemptsMade + 1,
              sleeps := delay :: rest.sleeps, logs := ev :: rest.logs }

/-- One execution of the decorated function (lines 54-79): `delay` starts at
`initial_delay`, `last_exception` at `None`, and the loop runs over
`range(max_retries + 1)`, i.e. `(max_retries + 1).toNat` iterations starting
at `retry = 0`. -/
def wrapper (cfg : RetryConfig) (func : ℕ → Except PyExc α) : RunTrace α :=
  wrapperLoop cfg func (cfg.maxRetries + 1).toNat 0 cfg.initialDelay none

/-- The configuration `@retry_with_backoff(max_retries=3, initial_delay=5)`
applied to `fetch_image` (line 83); `max_delay` and `backoff_factor` keep
their defaults 60 and 2 (line 42). -/
def fetchRetryConfig : RetryConfig :=
  { maxRetries := 3, initialDelay := 5, maxDelay := 60, backoffFactor := 2 }

/-- The configuration `@retry_with_backoff(max_retries=3, initial_delay=5)`
applied to `post_to_twitter` (line 115). -/
def postRetryConfig : RetryConfig :=
  { maxRetries := 3, initialDelay := 5, maxDelay := 60, backoffFactor := 2 }

/-- One call of the decorated `fetch_image` (lines 83-113), with `f i` the
result of the body on the iteration with counter `i`; on success the body
returns the image path string (line 113). -/
def fetch_image_run (f : ℕ → Except PyExc String) : RunTrace String :=
  wrapper fetchRetryConfig f

/-- One attempt of the body of `post_to_twitter` (lines 116-152): line 137
calls the decorated `fetch_image()`, so a whole inner retried run happens
inside this single outer attempt.  If that inner run raises, the exception
propagates out of this attempt; otherwise the rest of the body (media
upload and tweet creation, lines 141-152, modelled by `rest`) runs on the
returned path.  A `trailingRaise none` would be Python raising `None`,
a `TypeError`. -/
def postBodyAttempt (fetchF : ℕ → Except PyExc String)
    (rest : String → Except PyExc Unit) : Except PyExc Unit :=
  match (fetch_image_run fetchF).outcome with
  | .ok p => rest p
  | .raised e => .error e
  | .trailingRaise (some e) => .error e
  | .trailingRaise none =>
      .error { isTooManyRequests := false, isRequestException := false,
               responseStatus := 0, msg := "TypeError: exceptions must derive from BaseException" }

/-- One call of the decorated `post_to_twitter` (lines 115-152):
`fetchFs o i` is the result of the `fetch_image` body on inner iteration
`i` of the inner run performed during outer iteration `o`, and `rests o`
models the remainder of the body on outer iteration `o`. -/
def post_to_twitter_run (fetchFs : ℕ → ℕ → Except PyExc String)
    (rests : ℕ → String → Except PyExc Unit) : RunTrace Unit :=
  wrapper postRetryConfig (fun o => postBodyAttempt (fetchFs o) (rests o))

/-- Total number of times the `fetch_image` body is attempted within one
scheduled run: each outer attempt of `post_to_twitter` performs exactly one
full inner run of the decorated `fetch_image` (line 137), so the total is
the sum over the outer attempts actually made of that outer attempt's inner
attempt count. -/
def totalFetchAttempts (fetchFs : ℕ → ℕ → Except PyExc String)
    (rests : ℕ → String → Except PyExc Unit) : ℕ :=
  ((List.range (post_to_twitter_run fetchFs rests).attemptsMade).map
    (fun o => (fetch_image_run (fetchFs o)).attemptsMade)).sum

/-- Whether the long-running process survives a scheduled run of the job.
`main` (lines 154-170) registers `post_to_twitter` itself as the job
(line 159) with no surrounding try/except, and the `schedule` library's
`run_pending` invokes the job directly without installing any exception
handler, so an exception raised by the job propagates out of
`schedule.run_pending()` and out of the `while True` loop (lines 168-170):
the process survives the run exactly when the job does not raise. -/
def scheduledRunSurvives (t : RunTrace Unit) : Bool :=
  match t.outcome with
  | .ok _ => true
  | .raised _ => false
  | .trailingRaise _ => false

/-- A calendar date, as held by the date part of a `datetime`. -/
structure Date where
  year : ℕ
  month : ℕ
  day : ℕ
deriving DecidableEq

/-- The Gregorian leap-year rule used by `datetime`. -/
def isLeapYear (y : ℕ) : Bool :=
  (y % 4 == 0 && y % 100 != 0) || (y % 400 == 0)

/-- Number of days in a month of a given year. -/
def daysInMonth (y m : ℕ) : ℕ :=
  if m = 2 then (if isLeapYear y then 29 else 28)
  else if m = 4 ∨ m = 6 ∨ m = 9 ∨ m = 11 then 30 else 31

/-- The date part of `datetime - timedelta(days=1)`: in UTC, subtracting one
day moves to the previous calendar day with the time of day unchanged. -/
def prevDay (d : Date) : Date :=
  if 1 < d.day then { year := d.year, month := d.month, day := d.day - 1 }
  else if 1 < d.month then
    { year := d.year, month := d.month - 1, day := daysInMonth d.year (d.month - 1) }
  else { year := d.year - 1, month := 12, day := 31 }

/-- A `datetime` value: a date plus time-of-day fields down to microseconds. -/
structure PyDateTime where
  date : Date
  hour : ℕ
  minute : ℕ
  second : ℕ
  microsecond : ℕ
deriving DecidableEq

/-- `yesterday = datetime.now(UTC) - timedelta(days=1)` (line 87). -/
def yesterdayOf (now : PyDateTime) : PyDateTime :=
  { now with date := prevDay now.date }

/-- `from_date = yesterday.replace(hour=0, minute=0, second=0, microsecond=0)`
(line 88). -/
def from_date (now : PyDateTime) : PyDateTime :=
  { yesterdayOf now with hour := 0, minute := 0, second := 0, microsecond := 0 }

/-- `to_date = yesterday.replace(hour=23, minute=59, second=59, microsecond=999999)`
(line 89). -/
def to_date (now : PyDateTime) : PyDateTime :=
  { yesterdayOf now with hour := 23, minute := 59, second := 59, microsecond := 999999 }

/-- Decimal digits of `n`, zero-padded on the left to width 2. -/
def pad2 (n : ℕ) : String :=
  if n < 10 then "0" ++ toString n else toString n

/-- Decimal digits of `n`, zero-padded on the left to width 4. -/
def pad4 (n : ℕ) : String :=
  if n < 10 then "000" ++ toString n
  else if n < 100 then "00" ++ toString n
  else if n < 1000 then "0" ++ toString n
  else toString n

/-- `dt.strftime("%Y-%m-%dT%H:%M:%S.000Z")` (lines 95-96): the year, month,
day, hour, minute and second fields are substituted, while the characters
`.000Z` are literal text of the format string, so the sub-second part of the
output is the constant `000` whatever `dt.microsecond` is. -/
def strftimeMs000Z (dt : PyDateTime) : String :=
  pad4 dt.date.year ++ "-" ++ pad2 dt.date.month ++ "-" ++ pad2 dt.date.day ++ "T" ++
  pad2 dt.hour ++ ":" ++ pad2 dt.minute ++ ":" ++ pad2 dt.second ++ ".000Z"

/-- The query parameters of the Grafana render request (lines 92-100). -/
structure FetchParams where
  panelId : String
  varCoinbase : String
  fromTs : String
  toTs : String
  width : String
  height : String
  tz : String
deriving DecidableEq

/-- The `params` dict built by `fetch_image` (lines 92-100) as a function of
the current UTC wall-clock time. -/
def fetchParams (now : PyDateTime) : FetchParams :=
  { panelId := "8"
    varCoinbase := "false"
    fromTs := strftimeMs000Z (from_date now)
    toTs := strftimeMs000Z (to_date now)
    width := "720"
    height := "480"
    tz := "utc" }

/-- A generic (non-rate-limit) failure used as a concrete test exception. -/
def genericFailure : PyExc :=
  { isTooManyRequests := false, isRequestException := false,
    responseStatus := 500, msg := "connection error" }

/-- A rate-limit failure (`tweepy.errors.TooManyRequests`) used as a
concrete test exception. -/
def rateLimitFailure : PyExc :=
  { isTooManyRequests := true, isRequestException := false,
    responseStatus := 429, msg := "Too Many Requests" }

/-- A zero-retry configuration used to exercise the `max_retries=0` case. -/
def zeroRetryConfig : RetryConfig :=
  { maxRetries := 0, initialDelay := 5, maxDelay := 60, backoffFactor := 2 }

lemma wrapperLoop_succ_ok (cfg : RetryConfig) (func : ℕ → Except PyExc α)
    (iters retry : ℕ) (delay : ℚ) (le : Option PyExc) (a : α) (h : func retry = .ok a) :
    wrapperLoop cfg func (iters + 1) retry delay le =
      { outcome := .ok a, attemptsMade := 1, sleeps := [], logs := [] } := by
  unfold wrapperLoop
  rw [h]

lemma wrapperLoop_succ_err_last (cfg : RetryConfig) (func : ℕ → Except PyExc α)
    (iters retry : ℕ) (delay : ℚ) (le : Option PyExc) (e : PyExc)
    (h : func retry = .error e) (hr : (retry : ℤ) = cfg.maxRetries) :
    wrapperLoop cfg func (iters + 1) retry delay le =
      { outcome := .raised e, attemptsMade := 1, sleeps := [],
        logs := [.errorFinal cfg.maxRetries e.msg] } := by
  unfold wrapperLoop
  rw [h]
  simp [hr]

lemma wrapperLoop_succ_err_cont (cfg : RetryConfig) (func : ℕ → Except PyExc α)
    (iters retry : ℕ) (delay : ℚ) (le : Option PyExc) (e : PyExc)
    (h : func retry = .error e) (hr : (retry : ℤ) ≠ cfg.maxRetries) :
    wrapperLoop cfg func (iters + 1) retry delay le =
      { outcome := (wrapperLoop cfg func iters (retry + 1) (delayStep cfg delay) (some e)).outcome,
        attemptsMade :=
          (wrapperLoop cfg func iters (retry + 1) (delayStep cfg delay) (some e)).attemptsMade + 1,
        sleeps :=
          delay :: (wrapperLoop cfg func iters (retry + 1) (delayStep cfg delay) (some e)).sleeps,
        logs :=
          (if isRateLimitError e then LogEvent.warnRateLimit delay
           else LogEvent.warnAttemptFailed (retry + 1) e.msg delay) ::
            (wrapperLoop cfg func iters (retry + 1) (delayStep cfg delay) (some e)).logs } := by
  conv_lhs => rw [wrapperLoop]
  rw [h]
  simp [hr]

lemma delayIter_step (cfg : RetryConfig) (d : ℚ) :
    ∀ i, delayIter cfg (delayStep cfg d) i = delayIter cfg d (i + 1) := by
  intro i
  induction i with
  | zero => rfl
  | succ n ih => simp only [delayIter, ih]

lemma range_map_delayIter (cfg : RetryConfig) (d : ℚ) (n : ℕ) :
    (List.range (n + 1)).map (delayIter cfg d) =
      d :: (List.range n).map (delayIter cfg (delayStep cfg d)) := by
  rw [List.range_succ_eq_map, List.map_cons, List.map_map]
  refine congrArg₂ _ rfl (List.map_congr_left ?h)
  intro i _
  exact (delayIter_step cfg d i).symm

lemma wrapperLoop_allFail (cfg : RetryConfig) (f : ℕ → Except PyExc α) (es : ℕ → PyExc)
    (hf : ∀ i, f i = .error (es i)) :
    ∀ (iters retry : ℕ) (delay : ℚ) (le : Option PyExc), 1 ≤ iters →
      ((retry : ℤ) + iters = cfg.maxRetries + 1) →
      (wrapperLoop cfg f iters retry delay le).outcome = .raised (es (retry + iters - 1)) ∧
      (wrapperLoop cfg f iters retry delay le).attemptsMade = iters ∧
      (wrapperLoop cfg f iters retry delay le).sleeps
        = (List.range (iters - 1)).map (delayIter cfg delay) ∧
      LogEvent.errorFinal cfg.maxRetries (es (retry + iters - 1)).msg
        ∈ (wrapperLoop cfg f iters retry delay le).logs := by
  intro iters
  induction iters with
  | zero => intro retry delay le h1; exact absurd h1 (by omega)
  | succ n ih =>
    intro retry delay le _h1 hinv
    by_cases hr : (retry : ℤ) = cfg.maxRetries
    · have hn : n = 0 := by omega
      subst hn
      rw [wrapperLoop_succ_err_last cfg f 0 retry delay le (es retry) (hf retry) hr]
      refine ⟨rfl, rfl, rfl, ?hmem⟩
      simp
    · have hn : 1 ≤ n := by
        rcases Nat.eq_zero_or_pos n with h0 | h0
        · exfalso; apply hr; omega
        · exact h0
      obtain ⟨m, rfl⟩ : ∃ m, n = m + 1 := ⟨n - 1, by omega⟩
      rw [wrapperLoop_succ_err_cont cfg f (m + 1) retry delay le (es retry) (hf retry) hr]
      have hinv2 : ((retry + 1 : ℕ) : ℤ) + ((m + 1 : ℕ) : ℤ) = cfg.maxRetries + 1 := by
        push_cast
        push_cast at hinv
        omega
      obtain ⟨ho, ha, hs, hl⟩ :=
        ih (retry + 1) (delayStep cfg delay) (some (es retry)) (by omega) hinv2
      have hidx : retry + 1 + (m + 1) - 1 = retry + (m + 1 + 1) - 1 := by omega
      refine ⟨?o, ?a, ?s, ?l⟩
      case o => rw [ho, hidx]
      case a => rw [ha]
      case s =>
        rw [hs]
        have : m + 1 + 1 - 1 = (m + 1 - 1) + 1 := by omega
        rw [this, range_map_delayIter]
      case l =>
        rw [← hidx]
        exact List.mem_cons_of_mem _ hl

lemma wrapper_allFail (cfg : RetryConfig) (f : ℕ → Except PyExc α) (es : ℕ → PyExc)
    (h0 : 0 ≤ cfg.maxRetries) (hf : ∀ i, f i = .error (es i)) :
    (wrapper cfg f).outcome = .raised (es cfg.maxRetries.toNat) ∧
    (wrapper cfg f).attemptsMade = cfg.maxRetries.toNat + 1 ∧
    (wrapper cfg f).sleeps = (List.range cfg.maxRetries.toNat).map (delaySeq cfg) ∧
    LogEvent.errorFinal cfg.maxRetries (es cfg.maxRetries.toNat).msg ∈ (wrapper cfg f).logs := by
  unfold wrapper
  have hiters : (cfg.maxRetries + 1).toNat = cfg.maxRetries.toNat + 1 := by omega
  have hinv : ((0 : ℕ) : ℤ) + ((cfg.maxRetries + 1).toNat : ℤ) = cfg.maxRetries + 1 := by
    omega
  obtain ⟨ho, ha, hs, hl⟩ :=
    wrapperLoop_allFail cfg f es hf (cfg.maxRetries + 1).toNat 0 cfg.initialDelay none
      (by omega) hinv
  have hidx : 0 + (cfg.maxRetries + 1).toNat - 1 = cfg.maxRetries.toNat := by omega
  rw [hidx] at ho hl
  refine ⟨ho, ?a, ?s, hl⟩
  case a => rw [ha, hiters]
  case s =>
    rw [hs, hiters]
    rfl

/-- C1: For every configuration with non-negative `max_retries`, if every
attempt of the wrapped operation fails, the wrapper makes exactly
`max_retries + 1` attempts before propagating the failure; in particular
with `max_retries = 0` exactly one attempt is made and the failure
propagates immediately with no wait. -/
theorem retry_exhaustion_attempt_count (cfg : RetryConfig) (f : ℕ → Except PyExc α)
    (es : ℕ → PyExc) (h0 : 0 ≤ cfg.maxRetries) (hf : ∀ i, f i = .error (es i)) :
    (wrapper cfg f).attemptsMade = cfg.maxRetries.toNat + 1 ∧
    (∃ e, (wrapper cfg f).outcome = RunOutcome.raised e) ∧
    (cfg.maxRetries = 0 →
      (wrapper cfg f).attemptsMade = 1 ∧ (wrapper cfg f).sleeps = []) := by
  obtain ⟨ho, ha, hs, _⟩ := wrapper_allFail cfg f es h0 hf
  refine ⟨ha, ⟨_, ho⟩, ?z⟩
  intro hz
  constructor
  · rw [ha, hz]
    rfl
  · rw [hs, hz]
    rfl

theorem retry_exhaustion_attempt_count_witness :
    (wrapper fetchRetryConfig
        (fun _ => (Except.error genericFailure : Except PyExc Unit))).attemptsMade = 4 ∧
    (wrapper zeroRetryConfig
        (fun _ => (Except.error genericFailure : Except PyExc Unit))).attemptsMade = 1 ∧
    (wrapper zeroRetryConfig
        (fun _ => (Except.error genericFailure : Except PyExc Unit))).sleeps = [] := by
  have h1 := retry_exhaustion_attempt_count fetchRetryConfig
    (fun _ => (Except.error genericFailure : Except PyExc Unit)) (fun _ => genericFailure)
    (by decide) (fun i => rfl)
  have h2 := retry_exhaustion_attempt_count zeroRetryConfig
    (fun _ => (Except.error genericFailure : Except PyExc Unit)) (fun _ => genericFailure)
    (by decide) (fun i => rfl)
  exact ⟨h1.1.trans (by decide), (h2.2.2 rfl).1, (h2.2.2 rfl).2⟩

/-- C5: After exhausting all attempts, the exception the wrapper propagates
is exactly the exception raised by the final failing attempt (attempt index
`max_retries` of the zero-indexed loop), with its kind and message
preserved, not the first attempt's exception. -/
theorem retry_propagates_last_error (cfg : RetryConfig) (f : ℕ → Except PyExc α)
    (es : ℕ → PyExc) (h0 : 0 ≤ cfg.maxRetries) (hf : ∀ i, f i = .error (es i)) :
    (wrapper cfg f).outcome = RunOutcome.raised (es cfg.maxRetries.toNat) :=
  (wrapper_allFail cfg f es h0 hf).1

theorem retry_propagates_last_error_witness :
    (wrapper fetchRetryConfig
        (fun i => (Except.error ⟨false, false, 0, toString i⟩ : Except PyExc Unit))).outcome
      = RunOutcome.raised ⟨false, false, 0, "3"⟩ := by
  have h := retry_propagates_last_error fetchRetryConfig
    (fun i => (Except.error ⟨false, false, 0, toString i⟩ : Except PyExc Unit))
    (fun i => ⟨false, false, 0, toString i⟩) (by decide) (fun i => rfl)
  exact h.trans (by decide)

lemma wrapperLoop_not_trailing (cfg : RetryConfig) (f : ℕ → Except PyExc α) :
    ∀ (iters retry : ℕ) (delay : ℚ) (le : Option PyExc), 1 ≤ iters →
      ((retry : ℤ) + iters = cfg.maxRetries + 1) →
      isTrailingRaise (wrapperLoop cfg f iters retry delay le).outcome = false := by
  intro iters
  induction iters with
  | zero => intro _ _ _ h1 _; exact absurd h1 (by omega)
  | succ n ih =>
    intro retry delay le _h1 hinv
    cases hfr : f retry with
    | ok a =>
      rw [wrapperLoop_succ_ok cfg f n retry delay le a hfr]
      rfl
    | error e =>
      by_cases hr : (retry : ℤ) = cfg.maxRetries
      · rw [wrapperLoop_succ_err_last cfg f n retry delay le e hfr hr]
        rfl
      · have hn : 1 ≤ n := by
          rcases Nat.eq_zero_or_pos n with h0 | h0
          · exfalso; apply hr; omega
          · exact h0
        rw [wrapperLoop_succ_err_cont cfg f n retry delay le e hfr hr]
        exact ih (retry + 1) (delayStep cfg delay) (some e) hn (by push_cast at hinv ⊢; omega)

/-- C10: For every non-negative `max_retries`, the trailing
`raise last_exception` after the loop (line 79) is unreachable: the wrapper
always returns or raises from within the loop. -/
theorem trailing_raise_unreachable (cfg : RetryConfig) (f : ℕ → Except PyExc α)
    (h0 : 0 ≤ cfg.maxRetries) :
    isTrailingRaise (wrapper cfg f).outcome = false := by
  unfold wrapper
  exact wrapperLoop_not_trailing cfg f (cfg.maxRetries + 1).toNat 0 cfg.initialDelay none
    (by omega) (by omega)

theorem trailing_raise_unreachable_witness :
    isTrailingRaise (wrapper fetchRetryConfig
        (fun _ => (Except.error genericFailure : Except PyExc Unit))).outcome = false :=
  trailing_raise_unreachable fetchRetryConfig
    (fun _ => (Except.error genericFailure : Except PyExc Unit)) (by decide)

lemma delaySeq_closed_form (cfg : RetryConfig) (hbf : 1 < cfg.backoffFactor)
    (h0 : 0 < cfg.initialDelay) (hle : cfg.initialDelay ≤ cfg.maxDelay) :
    ∀ k, delaySeq cfg k = min (cfg.initialDelay * cfg.backoffFactor ^ k) cfg.maxDelay := by
  intro k
  induction k with
  | zero =>
    simp only [delaySeq, delayIter, pow_zero, mul_one]
    exact (min_eq_left hle).symm
  | succ n ih =>
    have hmax0 : 0 < cfg.maxDelay := lt_of_lt_of_le h0 hle
    have hbf0 : 0 < cfg.backoffFactor := lt_trans one_pos hbf
    simp only [delaySeq, delayIter, delayStep] at ih ⊢
    rw [ih]
    by_cases hc : cfg.initialDelay * cfg.backoffFactor ^ n ≤ cfg.maxDelay
    · rw [min_eq_left hc, pow_succ, ← mul_assoc]
    · push_neg at hc
      have h1 : cfg.maxDelay ≤ cfg.maxDelay * cfg.backoffFactor :=
        le_mul_of_one_le_right (le_of_lt hmax0) (le_of_lt hbf)
      have hp : 0 < cfg.initialDelay * cfg.backoffFactor ^ n :=
        mul_pos h0 (pow_pos hbf0 n)
      have h2 : cfg.maxDelay ≤ cfg.initialDelay * cfg.backoffFactor ^ (n + 1) := by
        calc cfg.maxDelay ≤ cfg.initialDelay * cfg.backoffFactor ^ n := le_of_lt hc
          _ ≤ cfg.initialDelay * cfg.backoffFactor ^ n * cfg.backoffFactor :=
              le_mul_of_one_le_right (le_of_lt hp) (le_of_lt hbf)
          _ = cfg.initialDelay * cfg.backoffFactor ^ (n + 1) := by rw [pow_succ, mul_assoc]
      rw [min_eq_right (le_of_lt hc), min_eq_right h1, min_eq_right h2]

lemma isErr_error (f : ℕ → Except PyExc α) (i : ℕ) (h : isErr (f i) = true) :
    ∃ e, f i = .error e := by
  cases hf0 : f i with
  | ok a => rw [hf0] at h; exact absurd h (by simp [isErr])
  | error e => exact ⟨e, rfl⟩

lemma wrapperLoop_sleeps_take (cfg : RetryConfig) (f : ℕ → Except PyExc α) :
    ∀ (m : ℕ), ∀ (iters retry : ℕ) (delay : ℚ) (le : Option PyExc),
      m + 1 ≤ iters → ((retry : ℤ) + iters = cfg.maxRetries + 1) →
      (∀ i, i < m → isErr (f (retry + i)) = true) →
      ((wrapperLoop cfg f iters retry delay le).sleeps).take m
        = (List.range m).map (delayIter cfg delay) := by
  intro m
  induction m with
  | zero => intro iters retry delay le _ _ _; simp
  | succ p ih =>
    intro iters retry delay le hit hinv hfail
    obtain ⟨t, rfl⟩ : ∃ t, iters = t + 1 := ⟨iters - 1, by omega⟩
    have herr : isErr (f retry) = true := by
      have h0 := hfail 0 (by omega)
      simpa using h0
    obtain ⟨e, he⟩ := isErr_error f retry herr
    have hr : (retry : ℤ) ≠ cfg.maxRetries := by
      intro hcontra
      push_cast at hinv
      omega
    rw [wrapperLoop_succ_err_cont cfg f t retry delay le e he hr]
    simp only [List.take_succ_cons]
    rw [range_map_delayIter cfg delay p]
    refine congrArg (List.cons delay)
      (ih t (retry + 1) (delayStep cfg delay) (some e) (by omega)
        (by push_cast at hinv ⊢; omega) ?hfails)
    intro i hi
    have hnext := hfail (i + 1) (by omega)
    rwa [show retry + (i + 1) = retry + 1 + i by omega] at hnext

/-- C2: Under the configuration preconditions (`backoff_factor > 1`,
`0 < initial_delay ≤ max_delay`), the wait before the `k`-th re-attempt
(`k ≥ 1`, when the first `k` attempts fail) equals the closed form
`min(initial_delay * backoff_factor^(k-1), max_delay)`: the line-55/77
recurrence equals the closed form. -/
theorem retry_wait_closed_form (cfg : RetryConfig) (f : ℕ → Except PyExc α)
    (hbf : 1 < cfg.backoffFactor) (h0 : 0 < cfg.initialDelay)
    (hle : cfg.initialDelay ≤ cfg.maxDelay) (k : ℕ) (hk1 : 1 ≤ k)
    (hk2 : (k : ℤ) ≤ cfg.maxRetries) (hfail : ∀ i, i < k → isErr (f i) = true) :
    (wrapper cfg f).sleeps[k - 1]? =
      some (min (cfg.initialDelay * cfg.backoffFactor ^ (k - 1)) cfg.maxDelay) := by
  unfold wrapper
  have htake := wrapperLoop_sleeps_take cfg f k (cfg.maxRetries + 1).toNat 0
    cfg.initialDelay none (by omega) (by omega) (fun i hi => by simpa using hfail i hi)
  have hget :
      ((wrapperLoop cfg f (cfg.maxRetries + 1).toNat 0 cfg.initialDelay none).sleeps)[k - 1]?
        = (((wrapperLoop cfg f (cfg.maxRetries + 1).toNat 0 cfg.initialDelay none).sleeps).take
            k)[k - 1]? :=
    (List.getElem?_take_of_lt (by omega)).symm
  rw [hget, htake, List.getElem?_map]
  rw [List.getElem?_range (show k - 1 < k by omega)]
  show some (delayIter cfg cfg.initialDelay (k - 1)) = _
  exact congrArg some (delaySeq_closed_form cfg hbf h0 hle (k - 1))

theorem retry_wait_closed_form_witness :
    (wrapper fetchRetryConfig
        (fun _ => (Except.error genericFailure : Except PyExc Unit))).sleeps[0]?
      = some 5 ∧
    (wrapper fetchRetryConfig
        (fun _ => (Except.error genericFailure : Except PyExc Unit))).sleeps[1]?
      = some 10 ∧
    (wrapper fetchRetryConfig
        (fun _ => (Except.error genericFailure : Except PyExc Unit))).sleeps[2]?
      = some 20 := by
  have h1 := retry_wait_closed_form fetchRetryConfig
    (fun _ => (Except.error genericFailure : Except PyExc Unit))
    (by norm_num [fetchRetryConfig]) (by norm_num [fetchRetryConfig])
    (by norm_num [fetchRetryConfig]) 1 (by norm_num) (by norm_num [fetchRetryConfig])
    (fun i _ => rfl)
  have h2 := retry_wait_closed_form fetchRetryConfig
    (fun _ => (Except.error genericFailure : Except PyExc Unit))
    (by norm_num [fetchRetryConfig]) (by norm_num [fetchRetryConfig])
    (by norm_num [fetchRetryConfig]) 2 (by norm_num) (by norm_num [fetchRetryConfig])
    (fun i _ => rfl)
  have h3 := retry_wait_closed_form fetchRetryConfig
    (fun _ => (Except.error genericFailure : Except PyExc Unit))
    (by norm_num [fetchRetryConfig]) (by norm_num [fetchRetryConfig])
    (by norm_num [fetchRetryConfig]) 3 (by norm_num) (by norm_num [fetchRetryConfig])
    (fun i _ => rfl)
  refine ⟨?w1, ?w2, ?w3⟩
  case w1 => rw [h1]; norm_num [fetchRetryConfig]
  case w2 => rw [h2]; norm_num [fetchRetryConfig]
  case w3 => rw [h3]; norm_num [fetchRetryConfig]

lemma wrapperLoop_firstSuccess (cfg : RetryConfig) (f : ℕ → Except PyExc α) (a : α) :
    ∀ (j : ℕ), ∀ (iters retry : ℕ) (delay : ℚ) (le : Option PyExc),
      j < iters → ((retry : ℤ) + iters = cfg.maxRetries + 1) →
      (∀ i, i < j → isErr (f (retry + i)) = true) → f (retry + j) = .ok a →
      (wrapperLoop cfg f iters retry delay le).outcome = .ok a ∧
      (wrapperLoop cfg f iters retry delay le).attemptsMade = j + 1 ∧
      (wrapperLoop cfg f iters retry delay le).sleeps
        = (List.range j).map (delayIter cfg delay) := by
  intro j
  induction j with
  | zero =>
    intro iters retry delay le hj hinv _ hok
    obtain ⟨t, rfl⟩ : ∃ t, iters = t + 1 := ⟨iters - 1, by omega⟩
    rw [Nat.add_zero] at hok
    rw [wrapperLoop_succ_ok cfg f t retry delay le a hok]
    exact ⟨rfl, rfl, by simp⟩
  | succ p ih =>
    intro iters retry delay le hj hinv hfail hok
    obtain ⟨t, rfl⟩ : ∃ t, iters = t + 1 := ⟨iters - 1, by omega⟩
    have herr : isErr (f retry) = true := by
      have h0 := hfail 0 (by omega)
      simpa using h0
    obtain ⟨e, he⟩ := isErr_error f retry herr
    have hr : (retry : ℤ) ≠ cfg.maxRetries := by
      intro hcontra
      push_cast at hinv
      omega
    rw [wrapperLoop_succ_err_cont cfg f t retry delay le e he hr]
    have hok2 : f (retry + 1 + p) = .ok a := by
      rwa [show retry + (p + 1) = retry + 1 + p by omega] at hok
    obtain ⟨ho, ha, hs⟩ := ih t (retry + 1) (delayStep cfg delay) (some e) (by omega)
      (by push_cast at hinv ⊢; omega)
      (fun i hi => by
        have hnext := hfail (i + 1) (by omega)
        rwa [show retry + (i + 1) = retry + 1 + i by omega] at hnext)
      hok2
    refine ⟨ho, ?a, ?s⟩
    case a => rw [ha]
    case s =>
      rw [hs, range_map_delayIter cfg delay p]

/-- C6: If the wrapped operation succeeds on attempt `j` (with
`1 ≤ j ≤ max_retries + 1`, the first `j - 1` attempts failing), the wrapper
returns that attempt's result immediately: exactly `j` attempts are made and
exactly `j - 1` waits occur, none after the successful attempt. -/
theorem retry_success_returns_immediately (cfg : RetryConfig) (f : ℕ → Except PyExc α)
    (a : α) (j : ℕ) (h1 : 1 ≤ j) (h2 : (j : ℤ) ≤ cfg.maxRetries + 1)
    (hfail : ∀ i, i < j - 1 → isErr (f i) = true) (hok : f (j - 1) = .ok a) :
    (wrapper cfg f).outcome = RunOutcome.ok a ∧
    (wrapper cfg f).attemptsMade = j ∧
    (wrapper cfg f).sleeps.length = j - 1 := by
  unfold wrapper
  obtain ⟨ho, ha, hs⟩ := wrapperLoop_firstSuccess cfg f a (j - 1)
    (cfg.maxRetries + 1).toNat 0 cfg.initialDelay none (by omega) (by omega)
    (fun i hi => by simpa using hfail i hi) (by simpa using hok)
  refine ⟨ho, ?a, ?s⟩
  case a => rw [ha]; omega
  case s => rw [hs]; simp

theorem retry_success_returns_immediately_witness :
    (wrapper fetchRetryConfig
        (fun i => if i < 2 then (Except.error genericFailure : Except PyExc ℕ)
                  else Except.ok 7)).outcome = RunOutcome.ok 7 ∧
    (wrapper fetchRetryConfig
        (fun i => if i < 2 then (Except.error genericFailure : Except PyExc ℕ)
                  else Except.ok 7)).attemptsMade = 3 ∧
    (wrapper fetchRetryConfig
        (fun i => if i < 2 then (Except.error genericFailure : Except PyExc ℕ)
                  else Except.ok 7)).sleeps.length = 2 := by
  have h := retry_success_returns_immediately fetchRetryConfig
    (fun i => if i < 2 then (Except.error genericFailure : Except PyExc ℕ) else Except.ok 7)
    7 3 (by norm_num) (by decide)
    (fun i hi => by interval_cases i <;> rfl) (by rfl)
  exact h

lemma wrapperLoop_failure_pattern (cfg : RetryConfig) (f : ℕ → Except PyExc α)
    (g : ℕ → Except PyExc β) (hfg : ∀ i, isErr (f i) = isErr (g i)) :
    ∀ (iters retry : ℕ) (delay : ℚ) (le₁ le₂ : Option PyExc),
      (wrapperLoop cfg f iters retry delay le₁).sleeps
        = (wrapperLoop cfg g iters retry delay le₂).sleeps ∧
      (wrapperLoop cfg f iters retry delay le₁).attemptsMade
        = (wrapperLoop cfg g iters retry delay le₂).attemptsMade := by
  intro iters
  induction iters with
  | zero => intro retry delay le₁ le₂; exact ⟨rfl, rfl⟩
  | succ n ih =>
    intro retry delay le₁ le₂
    cases hf0 : f retry with
    | ok a =>
      have hg0 : isErr (g retry) = false := by
        rw [← hfg retry, hf0]
        rfl
      obtain ⟨b, hgb⟩ : ∃ b, g retry = .ok b := by
        cases hg1 : g retry with
        | ok b => exact ⟨b, rfl⟩
        | error e2 => rw [hg1] at hg0; exact absurd hg0 (by simp [isErr])
      rw [wrapperLoop_succ_ok cfg f n retry delay le₁ a hf0,
        wrapperLoop_succ_ok cfg g n retry delay le₂ b hgb]
      exact ⟨rfl, rfl⟩
    | error e =>
      have hg0 : isErr (g retry) = true := by
        rw [← hfg retry, hf0]
        rfl
      obtain ⟨e2, hge⟩ := isErr_error g retry hg0
      by_cases hr : (retry : ℤ) = cfg.maxRetries
      · rw [wrapperLoop_succ_err_last cfg f n retry delay le₁ e hf0 hr,
          wrapperLoop_succ_err_last cfg g n retry delay le₂ e2 hge hr]
        exact ⟨rfl, rfl⟩
      · rw [wrapperLoop_succ_err_cont cfg f n retry delay le₁ e hf0 hr,
          wrapperLoop_succ_err_cont cfg g n retry delay le₂ e2 hge hr]
        obtain ⟨hs, ha⟩ := ih (retry + 1) (delayStep cfg delay) (some e) (some e2)
        exact ⟨by rw [hs], by rw [ha]⟩

/-- C7: Two runs of the wrapper that fail on the same attempts produce
identical sleep sequences and identical attempt counts, whatever the
exceptions are; in particular rate-limit-classified failures (which change
only the warning log line chosen on lines 68-74) and generic failures give
the same retry arithmetic and control flow. -/
theorem retry_classification_cosmetic (cfg : RetryConfig) (f : ℕ → Except PyExc α)
    (g : ℕ → Except PyExc β) (hfg : ∀ i, isErr (f i) = isErr (g i)) :
    (wrapper cfg f).sleeps = (wrapper cfg g).sleeps ∧
    (wrapper cfg f).attemptsMade = (wrapper cfg g).attemptsMade := by
  unfold wrapper
  exact wrapperLoop_failure_pattern cfg f g hfg (cfg.maxRetries + 1).toNat 0
    cfg.initialDelay none none

theorem retry_classification_cosmetic_witness :
    isRateLimitError rateLimitFailure = true ∧
    isRateLimitError genericFailure = false ∧
    (wrapper fetchRetryConfig
        (fun _ => (Except.error rateLimitFailure : Except PyExc Unit))).sleeps
      = (wrapper fetchRetryConfig
          (fun _ => (Except.error genericFailure : Except PyExc Unit))).sleeps ∧
    (wrapper fetchRetryConfig
        (fun _ => (Except.error rateLimitFailure : Except PyExc Unit))).attemptsMade
      = (wrapper fetchRetryConfig
          (fun _ => (Except.error genericFailure : Except PyExc Unit))).attemptsMade := by
  have h := retry_classification_cosmetic fetchRetryConfig
    (fun _ => (Except.error rateLimitFailure : Except PyExc Unit))
    (fun _ => (Except.error genericFailure : Except PyExc Unit))
    (fun i => rfl)
  exact ⟨by decide, by decide, h.1, h.2⟩

lemma delayStep_pos (cfg : RetryConfig) (hbf : 1 < cfg.backoffFactor) (d : ℚ)
    (hd0 : 0 < d) (hdm : d ≤ cfg.maxDelay) : 0 < delayStep cfg d := by
  have h1 : 0 < d * cfg.backoffFactor := mul_pos hd0 (lt_trans one_pos hbf)
  have h2 : 0 < cfg.maxDelay := lt_of_lt_of_le hd0 hdm
  exact lt_min h1 h2

lemma delayStep_le_max (cfg : RetryConfig) (d : ℚ) : delayStep cfg d ≤ cfg.maxDelay :=
  min_le_right _ _

lemma le_delayStep (cfg : RetryConfig) (hbf : 1 < cfg.backoffFactor) (d : ℚ)
    (hd0 : 0 < d) (hdm : d ≤ cfg.maxDelay) : d ≤ delayStep cfg d := by
  refine le_min ?a hdm
  exact le_mul_of_one_le_right (le_of_lt hd0) (le_of_lt hbf)

lemma wrapperLoop_sleeps_bounds (cfg : RetryConfig) (f : ℕ → Except PyExc α)
    (hbf : 1 < cfg.backoffFactor) :
    ∀ (iters retry : ℕ) (delay : ℚ) (le : Option PyExc),
      0 < delay → delay ≤ cfg.maxDelay →
      ∀ d ∈ (wrapperLoop cfg f iters retry delay le).sleeps,
        delay ≤ d ∧ d ≤ cfg.maxDelay := by
  intro iters
  induction iters with
  | zero =>
    intro retry delay le _ _ d hd
    simp [wrapperLoop] at hd
  | succ n ih =>
    intro retry delay le hd0 hdm d hd
    cases hf0 : f retry with
    | ok a =>
      rw [wrapperLoop_succ_ok cfg f n retry delay le a hf0] at hd
      simp at hd
    | error e =>
      by_cases hr : (retry : ℤ) = cfg.maxRetries
      · rw [wrapperLoop_succ_err_last cfg f n retry delay le e hf0 hr] at hd
        simp at hd
      · rw [wrapperLoop_succ_err_cont cfg f n retry delay le e hf0 hr] at hd
        rcases List.mem_cons.mp hd with h | h
        · subst h
          exact ⟨le_refl _, hdm⟩
        · obtain ⟨h1, h2⟩ := ih (retry + 1) (delayStep cfg delay) (some e)
            (delayStep_pos cfg hbf delay hd0 hdm) (delayStep_le_max cfg delay) d h
          exact ⟨le_trans (le_delayStep cfg hbf delay hd0 hdm) h1, h2⟩

lemma wrapperLoop_sleeps_chain (cfg : RetryConfig) (f : ℕ → Except PyExc α)
    (hbf : 1 < cfg.backoffFactor) :
    ∀ (iters retry : ℕ) (delay : ℚ) (le : Option PyExc),
      0 < delay → delay ≤ cfg.maxDelay →
      List.Chain' (· ≤ ·) (wrapperLoop cfg f iters retry delay le).sleeps := by
  intro iters
  induction iters with
  | zero =>
    intro retry delay le _ _
    simp [wrapperLoop]
  | succ n ih =>
    intro retry delay le hd0 hdm
    cases hf0 : f retry with
    | ok a =>
      rw [wrapperLoop_succ_ok cfg f n retry delay le a hf0]
      simp
    | error e =>
      by_cases hr : (retry : ℤ) = cfg.maxRetries
      · rw [wrapperLoop_succ_err_last cfg f n retry delay le e hf0 hr]
        simp
      · rw [wrapperLoop_succ_err_cont cfg f n retry delay le e hf0 hr]
        refine List.chain'_cons'.mpr ⟨?head, ?tail⟩
        case head =>
          intro y hy
          have hmem := List.mem_of_mem_head? hy
          have hb := wrapperLoop_sleeps_bounds cfg f hbf n (retry + 1)
            (delayStep cfg delay) (some e) (delayStep_pos cfg hbf delay hd0 hdm)
            (delayStep_le_max cfg delay) y hmem
          exact le_trans (le_delayStep cfg hbf delay hd0 hdm) hb.1
        case tail =>
          exact ih (retry + 1) (delayStep cfg delay) (some e)
            (delayStep_pos cfg hbf delay hd0 hdm) (delayStep_le_max cfg delay)

/-- C8: Within one wrapped call, under the configuration preconditions
(`backoff_factor > 1`, `0 < initial_delay ≤ max_delay`), the successive
sleep durations are monotonically non-decreasing and each is bounded above
by `max_delay`. -/
theorem retry_delay_monotone_bounded (cfg : RetryConfig) (f : ℕ → Except PyExc α)
    (hbf : 1 < cfg.backoffFactor) (h0 : 0 < cfg.initialDelay)
    (hle : cfg.initialDelay ≤ cfg.maxDelay) :
    List.Chain' (· ≤ ·) (wrapper cfg f).sleeps ∧
    ∀ d ∈ (wrapper cfg f).sleeps, d ≤ cfg.maxDelay := by
  unfold wrapper
  constructor
  · exact wrapperLoop_sleeps_chain cfg f hbf (cfg.maxRetries + 1).toNat 0
      cfg.initialDelay none h0 hle
  · intro d hd
    exact (wrapperLoop_sleeps_bounds cfg f hbf (cfg.maxRetries + 1).toNat 0
      cfg.initialDelay none h0 hle d hd).2

theorem retry_delay_monotone_bounded_witness :
    List.Chain' (· ≤ ·) (wrapper fetchRetryConfig
        (fun _ => (Except.error genericFailure : Except PyExc Unit))).sleeps ∧
    ∀ d ∈ (wrapper fetchRetryConfig
        (fun _ => (Except.error genericFailure : Except PyExc Unit))).sleeps,
      d ≤ fetchRetryConfig.maxDelay :=
  retry_delay_monotone_bounded fetchRetryConfig
    (fun _ => (Except.error genericFailure : Except PyExc Unit))
    (by norm_num [fetchRetryConfig]) (by norm_num [fetchRetryConfig])
    (by norm_num [fetchRetryConfig])

lemma fetch_image_run_allFail (fetchF : ℕ → Except PyExc String) (es : ℕ → PyExc)
    (hf : ∀ i, fetchF i = .error (es i)) :
    (fetch_image_run fetchF).outcome = RunOutcome.raised (es 3) ∧
    (fetch_image_run fetchF).attemptsMade = 4 := by
  obtain ⟨ho, ha, _, _⟩ := wrapper_allFail fetchRetryConfig fetchF es (by decide) hf
  exact ⟨ho, ha⟩

lemma postBodyAttempt_allFail (fetchF : ℕ → Except PyExc String)
    (rest : String → Except PyExc Unit) (es : ℕ → PyExc)
    (hf : ∀ i, fetchF i = .error (es i)) :
    postBodyAttempt fetchF rest = .error (es 3) := by
  have h := (fetch_image_run_allFail fetchF es hf).1
  unfold postBodyAttempt
  rw [h]

/-- C9: `fetch_image` is itself decorated and is invoked from inside the
already-decorated `post_to_twitter` (line 137), so the retries nest: with
both configurations at `max_retries = 3`, a persistently failing fetch body
is attempted `(3+1) * (3+1) = 16` times within one scheduled run before the
failure propagates out of the job. -/
theorem nested_retries_sixteen_fetch_attempts
    (fetchFs : ℕ → ℕ → Except PyExc String) (rests : ℕ → String → Except PyExc Unit)
    (es : ℕ → ℕ → PyExc) (hf : ∀ o i, fetchFs o i = .error (es o i)) :
    totalFetchAttempts fetchFs rests = 16 ∧
    (post_to_twitter_run fetchFs rests).outcome = RunOutcome.raised (es 3 3) := by
  have hbody : ∀ o, postBodyAttempt (fetchFs o) (rests o) = .error (es o 3) :=
    fun o => postBodyAttempt_allFail (fetchFs o) (rests o) (es o) (hf o)
  obtain ⟨ho, ha, _, _⟩ := wrapper_allFail postRetryConfig
    (fun o => postBodyAttempt (fetchFs o) (rests o)) (fun o => es o 3) (by decide) hbody
  have hcount : (post_to_twitter_run fetchFs rests).attemptsMade = 4 := by
    unfold post_to_twitter_run
    exact ha.trans (by decide)
  constructor
  · unfold totalFetchAttempts
    rw [hcount]
    have hmap : (List.range 4).map (fun o => (fetch_image_run (fetchFs o)).attemptsMade)
        = (List.range 4).map (fun _ => 4) := by
      refine List.map_congr_left ?e
      intro o _
      exact (fetch_image_run_allFail (fetchFs o) (es o) (hf o)).2
    rw [hmap]
    decide
  · unfold post_to_twitter_run
    exact ho

theorem nested_retries_sixteen_fetch_attempts_witness :
    totalFetchAttempts (fun _ _ => Except.error genericFailure)
      (fun _ _ => Except.ok ()) = 16 := by
  have h := nested_retries_sixteen_fetch_attempts
    (fun _ _ => Except.error genericFailure) (fun _ _ => Except.ok ())
    (fun _ _ => genericFailure) (fun o i => rfl)
  exact h.1

/-- C3 counterexample: with a persistently failing fetch, the scheduled run
of `post_to_twitter` ends in a raised exception that nothing in `main`
catches, so the process does not survive the run — the claim that errors
escaping the publish flow are caught at the top level of the scheduled job
and swallowed is false on this input. -/
theorem scheduled_run_not_swallowed_counterexample :
    scheduledRunSurvives (post_to_twitter_run (fun _ _ => Except.error genericFailure)
      (fun _ _ => Except.ok ())) = false := by
  have hbody : ∀ o : ℕ,
      (fun o : ℕ => postBodyAttempt (fun _ => Except.error genericFailure)
        (fun _ => Except.ok ())) o = Except.error ((fun _ : ℕ => genericFailure) o) :=
    fun o => postBodyAttempt_allFail (fun _ => Except.error genericFailure)
      (fun _ => Except.ok ()) (fun _ => genericFailure) (fun i => rfl)
  obtain ⟨ho, _, _, _⟩ := wrapper_allFail postRetryConfig
    (fun o : ℕ => postBodyAttempt (fun _ => Except.error genericFailure)
      (fun _ => Except.ok ())) (fun _ => genericFailure) (by decide) hbody
  have ho2 : (post_to_twitter_run (fun _ _ => Except.error genericFailure)
      (fun _ _ => Except.ok ())).outcome = RunOutcome.raised genericFailure := by
    unfold post_to_twitter_run
    exact ho
  simp [scheduledRunSurvives, ho2]

/-- C3 (amended): when the scheduled publish job exhausts its retry budget,
the retry wrapper logs the failure as an error (line 64) and the exception
then propagates uncaught out of the scheduled job: `main` installs no
handler around `post_to_twitter`, so the failing run is not swallowed and
the long-running process does not survive it. -/
theorem scheduled_run_exhaustion_propagates
    (fetchFs : ℕ → ℕ → Except PyExc String) (rests : ℕ → String → Except PyExc Unit)
    (es : ℕ → ℕ → PyExc) (hf : ∀ o i, fetchFs o i = .error (es o i)) :
    LogEvent.errorFinal postRetryConfig.maxRetries (es 3 3).msg
      ∈ (post_to_twitter_run fetchFs rests).logs ∧
    (post_to_twitter_run fetchFs rests).outcome = RunOutcome.raised (es 3 3) ∧
    scheduledRunSurvives (post_to_twitter_run fetchFs rests) = false := by
  have hbody : ∀ o, postBodyAttempt (fetchFs o) (rests o) = .error (es o 3) :=
    fun o => postBodyAttempt_allFail (fetchFs o) (rests o) (es o) (hf o)
  obtain ⟨ho, _, _, hl⟩ := wrapper_allFail postRetryConfig
    (fun o => postBodyAttempt (fetchFs o) (rests o)) (fun o => es o 3) (by decide) hbody
  have ho2 : (post_to_twitter_run fetchFs rests).outcome = RunOutcome.raised (es 3 3) := by
    unfold post_to_twitter_run
    exact ho
  refine ⟨?log, ho2, ?surv⟩
  case log =>
    unfold post_to_twitter_run
    exact hl
  case surv =>
    simp [scheduledRunSurvives, ho2]

theorem scheduled_run_exhaustion_propagates_witness :
    LogEvent.errorFinal postRetryConfig.maxRetries rateLimitFailure.msg
      ∈ (post_to_twitter_run (fun _ _ => Except.error rateLimitFailure)
          (fun _ _ => Except.ok ())).logs ∧
    scheduledRunSurvives (post_to_twitter_run (fun _ _ => Except.error rateLimitFailure)
      (fun _ _ => Except.ok ())) = false := by
  have h := scheduled_run_exhaustion_propagates
    (fun _ _ => Except.error rateLimitFailure) (fun _ _ => Except.ok ())
    (fun _ _ => rateLimitFailure) (fun o i => rfl)
  exact ⟨h.1, h.2.2⟩

/-- C4: evaluation of the fetch window at a concrete invocation time
(2024-03-15 12:30:45 UTC).  The in-memory window is the previous UTC
calendar day from 00:00:00.000000 to 23:59:59.999999 (lines 87-89), but the
strftime format string hardcodes the millisecond field as `.000`
(lines 95-96), so the transmitted `to` parameter ends in `23:59:59.000Z`,
not in `23:59:59.999Z` as the computed end of the window would require. -/
theorem fetch_to_param_millis_bug :
    to_date ⟨⟨2024, 3, 15⟩, 12, 30, 45, 123456⟩
      = ⟨⟨2024, 3, 14⟩, 23, 59, 59, 999999⟩ ∧
    (fetchParams ⟨⟨2024, 3, 15⟩, 12, 30, 45, 123456⟩).fromTs
      = "2024-03-14T00:00:00.000Z" ∧
    (fetchParams ⟨⟨2024, 3, 15⟩, 12, 30, 45, 123456⟩).toTs
      = "2024-03-14T23:59:59.000Z" ∧
    (fetchParams ⟨⟨2024, 3, 15⟩, 12, 30, 45, 123456⟩).toTs
      ≠ "2024-03-14T23:59:59.999Z" := by
  refine ⟨?w, ?f, ?t, ?e⟩ <;> decide
